import Mathlib

/-!
Verification of the Google Calendar MCP server (`calendar_mcp_server.py`)
against its natural-language specification.

The Python module is a thin adapter: each tool issues one remote call to the
Google Calendar API and reshapes the provider's JSON into simplified
mappings.  We embed it shallowly:

* provider resources are records with `Option`-valued fields (an absent JSON
  key is `none`);
* Python dict values returned to the dispatcher are `JVal` (JSON-like) trees,
  with dicts as insertion-ordered association lists (Python dicts preserve
  insertion order);
* the single remote call of each operation is a parameter: a function from
  the request the operation builds to `Except String <resource>`, where the
  `String` is the stringified `HttpError`.  The `try ... except HttpError`
  block catches exactly that error;
* any other Python exception escaping an operation (notably `KeyError` from
  the subscript `event["start"]`) is the `Except.error` of the operation's
  own result type `Except PyExc _`.
-/

namespace CalendarMCP

/-- JSON-like values as handed to the tool dispatcher: Python `None`,
strings, booleans, dicts (insertion-ordered key/value lists) and lists. -/
inductive JVal where
  | null : JVal
  | str : String → JVal
  | bool : Bool → JVal
  | obj : List (String × JVal) → JVal
  | list : List JVal → JVal

/-- Field access on a dict value: `some v` when the key is present. -/
def JVal.getField (v : JVal) (k : String) : Option JVal :=
  match v with
  | .obj fs => fs.lookup k
  | _ => none

/-- The keys of a dict value, in insertion order. -/
def JVal.keys : JVal → List String
  | .obj fs => fs.map Prod.fst
  | _ => []

/-- A Python exception other than `HttpError` escaping an operation.  The
only such exception the operations can raise themselves is `KeyError`, from
the subscripts `event["start"]` and `event["end"]`. -/
inductive PyExc where
  | keyError : String → PyExc
  deriving Repr, DecidableEq

/-- `x if x is not None else None` rendered as JSON: `event.get(k)` with no
default yields Python `None` for an absent key. -/
def optStr : Option String → JVal
  | none => JVal.null
  | some s => JVal.str s

/-- A provider `start`/`end` object: `dateTime` for timed events, `date` for
all-day events; either may be absent. -/
structure GTime where
  dateTime : Option String
  date : Option String
  deriving Repr, DecidableEq

/-- A provider `creator`/`organizer` object. -/
structure GPerson where
  email : Option String
  deriving Repr, DecidableEq

/-- A provider attendee object. -/
structure GAttendee where
  email : Option String
  displayName : Option String
  responseStatus : Option String
  deriving Repr, DecidableEq

/-- A provider event resource.  Every field the Python code reads is
optional: an absent JSON key is `none`.  `end_` renders the provider key
`"end"`. -/
structure GEvent where
  id : Option String
  summary : Option String
  start : Option GTime
  end_ : Option GTime
  description : Option String
  location : Option String
  attendees : Option (List GAttendee)
  htmlLink : Option String
  created : Option String
  updated : Option String
  creator : Option GPerson
  organizer : Option GPerson
  recurringEventId : Option String
  status : Option String
  deriving Repr, DecidableEq

/-- A provider `events.list` response; `events_result.get("items", [])`
defaults an absent `items` key to the empty list. -/
structure GEventsPage where
  items : Option (List GEvent)
  deriving Repr, DecidableEq

/-- A provider calendar-list entry. -/
structure GCalendar where
  id : Option String
  summary : Option String
  description : Option String
  primary : Option Bool
  accessRole : Option String
  backgroundColor : Option String
  foregroundColor : Option String
  deriving Repr, DecidableEq

/-- A provider `calendarList.list` response. -/
structure GCalPage where
  items : Option (List GCalendar)
  deriving Repr, DecidableEq

/-- The parameters the operations pass to `service.events().list(...)`. -/
structure EventsListRequest where
  calendarId : String
  timeMin : Option String
  timeMax : Option String
  q : Option String
  maxResults : Nat
  singleEvents : Bool
  orderBy : String
  deriving Repr, DecidableEq

/-- `{"error": f"An error occurred: {error}"}` — the normalized error object
built by every `except HttpError` handler. -/
def errObj (e : String) : JVal :=
  JVal.obj [("error", JVal.str ("An error occurred: " ++ e))]

/-- `event["start"]`: a Python subscript, raising `KeyError` when absent. -/
def GEvent.startObj (event : GEvent) : Except PyExc GTime :=
  match event.start with
  | some t => .ok t
  | none => .error (.keyError "start")

/-- `event["end"]`: a Python subscript, raising `KeyError` when absent. -/
def GEvent.endObj (event : GEvent) : Except PyExc GTime :=
  match event.end_ with
  | some t => .ok t
  | none => .error (.keyError "end")

/-- `t.get("dateTime", t.get("date"))`: the timed value when present, else
the all-day value, else Python `None`. -/
def GTime.pick (t : GTime) : Option String :=
  t.dateTime.orElse fun _ => t.date

/-- The per-event dict built by `list_upcoming_events` and
`get_events_in_date_range` (source lines 73–83 and 307–317): subscripts
`event["start"]` / `event["end"]` may raise `KeyError`; every other field is
read with `.get` and a default. -/
def formatListEvent (event : GEvent) : Except PyExc JVal :=
  match event.start with
  | none => .error (.keyError "start")
  | some st =>
    match event.end_ with
    | none => .error (.keyError "end")
    | some en =>
      .ok (JVal.obj [
        ("id", optStr event.id),
        ("summary", JVal.str (event.summary.getD "No title")),
        ("start", optStr st.pick),
        ("end", optStr en.pick),
        ("description", JVal.str (event.description.getD "")),
        ("location", JVal.str (event.location.getD "")),
        ("attendees", JVal.list ((event.attendees.getD []).map
          (fun a => optStr a.email))),
        ("html_link", JVal.str (event.htmlLink.getD ""))
      ])

/-- The per-event dict built by `search_events` (source lines 222–231); note
it has no `attendees` key. -/
def formatSearchEvent (event : GEvent) : Except PyExc JVal :=
  match event.start with
  | none => .error (.keyError "start")
  | some st =>
    match event.end_ with
    | none => .error (.keyError "end")
    | some en =>
      .ok (JVal.obj [
        ("id", optStr event.id),
        ("summary", JVal.str (event.summary.getD "No title")),
        ("start", optStr st.pick),
        ("end", optStr en.pick),
        ("description", JVal.str (event.description.getD "")),
        ("location", JVal.str (event.location.getD "")),
        ("html_link", JVal.str (event.htmlLink.getD ""))
      ])

/-- The `for event in events: formatted_events.append(...)` loop: events are
processed left to right and the first escaping exception aborts the rest. -/
def mapEvents (f : GEvent → Except PyExc JVal) : List GEvent → Except PyExc (List JVal)
  | [] => .ok []
  | e :: es =>
    match f e with
    | .error x => .error x
    | .ok v =>
      match mapEvents f es with
      | .error x => .error x
      | .ok vs => .ok (v :: vs)

/-- The request `list_upcoming_events` builds (source lines 58–68); `now` is
the current UTC timestamp computed on line 57. -/
def upcomingRequest (now : String) (max_results : Nat) (calendar_id : String) :
    EventsListRequest :=
  ⟨calendar_id, some now, none, none, max_results, true, "startTime"⟩

/-- `list_upcoming_events` (source lines 43–88).  `svc` is the remote
`events.list` call; `Except.error e` models an `HttpError` whose `str` is
`e`, which the handler converts to a one-element error list. -/
def list_upcoming_events (now : String) (max_results : Nat) (calendar_id : String)
    (svc : EventsListRequest → Except String GEventsPage) :
    Except PyExc (List JVal) :=
  match svc (upcomingRequest now max_results calendar_id) with
  | .error e => .ok [errObj e]
  | .ok page => mapEvents formatListEvent (page.items.getD [])

/-- `get_event_details` (source lines 91–132).  `svc` is the remote
`events.get` call, taking the calendar id and event id. -/
def get_event_details (event_id : String) (calendar_id : String)
    (svc : String → String → Except String GEvent) : Except PyExc JVal :=
  match svc calendar_id event_id with
  | .error e => .ok (errObj e)
  | .ok event =>
    match event.start with
    | none => .error (.keyError "start")
    | some st =>
      match event.end_ with
      | none => .error (.keyError "end")
      | some en =>
        .ok (JVal.obj [
          ("id", optStr event.id),
          ("summary", JVal.str (event.summary.getD "No title")),
          ("description", JVal.str (event.description.getD "")),
          ("location", JVal.str (event.location.getD "")),
          ("start", optStr st.pick),
          ("end", optStr en.pick),
          ("created", optStr event.created),
          ("updated", optStr event.updated),
          ("creator", JVal.str ((event.creator.bind GPerson.email).getD "")),
          ("organizer", JVal.str ((event.organizer.bind GPerson.email).getD "")),
          ("attendees", JVal.list ((event.attendees.getD []).map
            (fun a => JVal.obj [
              ("email", optStr a.email),
              ("displayName", JVal.str (a.displayName.getD "")),
              ("responseStatus", JVal.str (a.responseStatus.getD ""))
            ]))),
          ("html_link", JVal.str (event.htmlLink.getD ""))
          , ("recurring_event_id", optStr event.recurringEventId)
          , ("status", JVal.str (event.status.getD ""))
        ])

/-- The `event_body` dict of `create_event` (source lines 162–171).  The
Python guard `if attendees:` is False for both `None` and the empty list, so
the `attendees` key is added only for a non-empty list. -/
def createEventBody (summary start_datetime end_datetime description location : String)
    (attendees : Option (List String)) : JVal :=
  let base : List (String × JVal) := [
    ("summary", JVal.str summary),
    ("description", JVal.str description),
    ("location", JVal.str location),
    ("start", JVal.obj [("dateTime", JVal.str start_datetime)]),
    ("end", JVal.obj [("dateTime", JVal.str end_datetime)])
  ]
  match attendees with
  | some (a :: rest) =>
    JVal.obj (base ++ [("attendees", JVal.list ((a :: rest).map
      (fun email => JVal.obj [("email", JVal.str email)])))])
  | _ => JVal.obj base

/-- `create_event` (source lines 135–185).  `svc` is the remote
`events.insert` call, taking the calendar id and the request body.  Note
lines 178–179 read only `dateTime` from the returned start/end, with no
`date` fallback, and lines 176–180 use `.get` with no default. -/
def create_event (summary start_datetime end_datetime description location : String)
    (attendees : Option (List String)) (calendar_id : String)
    (svc : String → JVal → Except String GEvent) : Except PyExc JVal :=
  match svc calendar_id
      (createEventBody summary start_datetime end_datetime description location attendees) with
  | .error e => .ok (errObj e)
  | .ok event =>
    match event.start with
    | none => .error (.keyError "start")
    | some st =>
      match event.end_ with
      | none => .error (.keyError "end")
      | some en =>
        .ok (JVal.obj [
          ("id", optStr event.id),
          ("summary", optStr event.summary),
          ("start", optStr st.dateTime),
          ("end", optStr en.dateTime),
          ("html_link", optStr event.htmlLink),
          ("status", JVal.str "created")
        ])

/-- The request `search_events` builds (source lines 207–217). -/
def searchRequest (query : String) (max_results : Nat) (calendar_id : String) :
    EventsListRequest :=
  ⟨calendar_id, none, none, some query, max_results, true, "startTime"⟩

/-- `search_events` (source lines 188–236). -/
def search_events (query : String) (max_results : Nat) (calendar_id : String)
    (svc : EventsListRequest → Except String GEventsPage) :
    Except PyExc (List JVal) :=
  match svc (searchRequest query max_results calendar_id) with
  | .error e => .ok [errObj e]
  | .ok page => mapEvents formatSearchEvent (page.items.getD [])

/-- The per-calendar dict built by `list_calendars` (source lines 254–262);
every field is read with `.get` and a default, so it cannot raise. -/
def formatCalendar (calendar : GCalendar) : JVal :=
  JVal.obj [
    ("id", optStr calendar.id),
    ("summary", JVal.str (calendar.summary.getD "")),
    ("description", JVal.str (calendar.description.getD "")),
    ("primary", JVal.bool (calendar.primary.getD false)),
    ("access_role", JVal.str (calendar.accessRole.getD "")),
    ("background_color", JVal.str (calendar.backgroundColor.getD "")),
    ("foreground_color", JVal.str (calendar.foregroundColor.getD ""))
  ]

/-- `list_calendars` (source lines 239–267).  `svc` is the remote
`calendarList.list` call. -/
def list_calendars (svc : Unit → Except String GCalPage) :
    Except PyExc (List JVal) :=
  match svc () with
  | .error e => .ok [errObj e]
  | .ok page => .ok ((page.items.getD []).map formatCalendar)

/-- The request `get_events_in_date_range` builds (source lines 291–301). -/
def rangeRequest (start_date end_date calendar_id : String) (max_results : Nat) :
    EventsListRequest :=
  ⟨calendar_id, some start_date, some end_date, none, max_results, true, "startTime"⟩

/-- `get_events_in_date_range` (source lines 270–322). -/
def get_events_in_date_range (start_date end_date calendar_id : String)
    (max_results : Nat)
    (svc : EventsListRequest → Except String GEventsPage) :
    Except PyExc (List JVal) :=
  match svc (rangeRequest start_date end_date calendar_id max_results) with
  | .error e => .ok [errObj e]
  | .ok page => mapEvents formatListEvent (page.items.getD [])

/-- Modelled from the spec: the Credential entity (§3) held by the external
auth library — an access token, an expiry flag, and an optional refresh
token.  The branch logic of `get_calendar_service` is in the source; only
the library's `valid`/`refresh` semantics are modelled. -/
structure Credential where
  token : Option String
  expired : Bool
  refreshToken : Option String
  deriving Repr, DecidableEq

/-- Modelled from the spec: the library's validity check — a credential is
valid when it carries an access token that is not expired. -/
def Credential.valid (c : Credential) : Bool :=
  c.token.isSome && !c.expired

/-- Modelled from the spec: `creds.refresh(Request())` uses the refresh
token to obtain a fresh, non-expired access token; `newToken` is the token
the network round trip yields. -/
def Credential.refresh (c : Credential) (newToken : String) : Credential :=
  ⟨some newToken, false, c.refreshToken⟩

/-- Python truthiness of `creds.refresh_token`: `None` and the empty string
are falsy. -/
def truthy : Option String → Bool
  | none => false
  | some s => !s.isEmpty

/-- The outcome of the credential-acquisition step of `get_calendar_service`:
the credential handed to `build`, the contents of `token.json` afterwards,
and whether the interactive grant flow ran. -/
structure AuthOutcome where
  creds : Credential
  tokenFile : Option Credential
  ranInteractive : Bool
  deriving Repr, DecidableEq

/-- The credential-acquisition logic of `get_calendar_service` (source lines
21–40): load `token.json` when present; when the credential is missing or
invalid, either refresh it (expired with a truthy refresh token) or run the
interactive flow, then write `token.json`.  `newToken` is the access token a
refresh would obtain and `flowCreds` the credential the interactive flow
would return. -/
def obtainCredential (tokenFile : Option Credential) (newToken : String)
    (flowCreds : Credential) : AuthOutcome :=
  match tokenFile with
  | none => ⟨flowCreds, some flowCreds, true⟩
  | some c =>
    if c.valid then ⟨c, tokenFile, false⟩
    else if c.expired && truthy c.refreshToken then
      ⟨c.refresh newToken, some (c.refresh newToken), false⟩
    else ⟨flowCreds, some flowCreds, true⟩

/-- The given field of a successful operation result. -/
def okField (r : Except PyExc JVal) (k : String) : Option JVal :=
  match r with
  | .ok v => v.getField k
  | .error _ => none

/-- The key set of the records `list_upcoming_events` and
`get_events_in_date_range` return on success. -/
def listEventKeys : List String :=
  ["id", "summary", "start", "end", "description", "location", "attendees",
   "html_link"]

/-- The key set of the records `search_events` returns on success. -/
def searchEventKeys : List String :=
  ["id", "summary", "start", "end", "description", "location", "html_link"]

/-- The key set of the record `get_event_details` returns on success. -/
def detailEventKeys : List String :=
  ["id", "summary", "description", "location", "start", "end", "created",
   "updated", "creator", "organizer", "attendees", "html_link",
   "recurring_event_id", "status"]

/-- The key set of the record `create_event` returns on success. -/
def createdEventKeys : List String :=
  ["id", "summary", "start", "end", "html_link", "status"]

/-- The key set of the records `list_calendars` returns. -/
def calendarKeys : List String :=
  ["id", "summary", "description", "primary", "access_role",
   "background_color", "foreground_color"]

/-! Concrete provider resources used as test inputs. -/

/-- An event resource with every optional field absent, e.g. a malformed
item in a provider response. -/
def emptyEvent : GEvent :=
  ⟨none, none, none, none, none, none, none, none, none, none, none, none,
   none, none⟩

/-- A timed start/end object. -/
def timedTime (s : String) : GTime := ⟨some s, none⟩

/-- An all-day start/end object. -/
def allDayTime (s : String) : GTime := ⟨none, some s⟩

/-- A timed event the provider could return that carries no `id` key. -/
def eventNoId : GEvent :=
  ⟨none, some "Team sync", some (timedTime "2024-01-01T10:00:00Z"),
   some (timedTime "2024-01-01T11:00:00Z"), none, none, none, none, none,
   none, none, none, none, none⟩

/-- An all-day event: start/end carry only the `date` field. -/
def allDayEvent : GEvent :=
  ⟨some "ev2", some "Holiday", some (allDayTime "2024-01-01"),
   some (allDayTime "2024-01-02"), none, none, none, none, none, none, none,
   none, none, none⟩

/-- An attendee with an email address. -/
def demoAttendee : GAttendee := ⟨some "alice@example.com", none, none⟩

/-- A timed event inside 2024-01-01, with one attendee. -/
def rangeEvent : GEvent :=
  ⟨some "ev3", some "Standup", some (timedTime "2024-01-01T10:00:00Z"),
   some (timedTime "2024-01-01T10:30:00Z"), none, none, some [demoAttendee],
   none, none, none, none, none, none, none⟩

/-- Code-point-wise lexicographic order on character lists; on the fixed
ISO-8601 UTC timestamp format used by the provider this coincides with
chronological order. -/
def charListLt : List Char → List Char → Bool
  | [], [] => false
  | [], _ :: _ => true
  | _ :: _, [] => false
  | a :: as, b :: bs =>
    if a < b then true else if b < a then false else charListLt as bs

/-- Strict lexicographic order on strings. -/
def strLt (a b : String) : Bool := charListLt a.data b.data

/-- Reflexive lexicographic order on strings. -/
def strLe (a b : String) : Bool := !(strLt b a)

/-- The record `get_event_details` builds for `eventNoId`. -/
def detailRecordNoId : JVal :=
  JVal.obj [
    ("id", JVal.null),
    ("summary", JVal.str "Team sync"),
    ("description", JVal.str ""),
    ("location", JVal.str ""),
    ("start", JVal.str "2024-01-01T10:00:00Z"),
    ("end", JVal.str "2024-01-01T11:00:00Z"),
    ("created", JVal.null),
    ("updated", JVal.null),
    ("creator", JVal.str ""),
    ("organizer", JVal.str ""),
    ("attendees", JVal.list []),
    ("html_link", JVal.str ""),
    ("recurring_event_id", JVal.null),
    ("status", JVal.str "")]

/-- The record `create_event` builds when the provider returns
`allDayEvent`. -/
def createdAllDayRecord : JVal :=
  JVal.obj [
    ("id", JVal.str "ev2"),
    ("summary", JVal.str "Holiday"),
    ("start", JVal.null),
    ("end", JVal.null),
    ("html_link", JVal.null),
    ("status", JVal.str "created")]

/-- The record `create_event` builds when the provider returns
`eventNoId`. -/
def createdRecordNoId : JVal :=
  JVal.obj [
    ("id", JVal.null),
    ("summary", JVal.str "Team sync"),
    ("start", JVal.str "2024-01-01T10:00:00Z"),
    ("end", JVal.str "2024-01-01T11:00:00Z"),
    ("html_link", JVal.null),
    ("status", JVal.str "created")]

/-- The record the list-shaped operations build for `rangeEvent`. -/
def rangeRecord : JVal :=
  JVal.obj [
    ("id", JVal.str "ev3"),
    ("summary", JVal.str "Standup"),
    ("start", JVal.str "2024-01-01T10:00:00Z"),
    ("end", JVal.str "2024-01-01T10:30:00Z"),
    ("description", JVal.str ""),
    ("location", JVal.str ""),
    ("attendees", JVal.list [JVal.str "alice@example.com"]),
    ("html_link", JVal.str "")]

/-! Helper lemmas about the event-formatting pipeline. -/

/-- Inversion for `formatListEvent`: a successful formatting forces the
start/end objects to be present and determines the output record. -/
theorem formatListEvent_ok_shape (ev : GEvent) (st en : GTime) (v : JVal)
    (hs : ev.start = some st) (he : ev.end_ = some en)
    (h : formatListEvent ev = .ok v) :
    v = JVal.obj [
      ("id", optStr ev.id),
      ("summary", JVal.str (ev.summary.getD "No title")),
      ("start", optStr st.pick),
      ("end", optStr en.pick),
      ("description", JVal.str (ev.description.getD "")),
      ("location", JVal.str (ev.location.getD "")),
      ("attendees", JVal.list ((ev.attendees.getD []).map
        (fun a => optStr a.email))),
      ("html_link", JVal.str (ev.htmlLink.getD ""))] := by
  unfold formatListEvent at h
  rw [hs, he] at h
  exact (Except.ok.inj h).symm

/-- Inversion for `formatSearchEvent`. -/
theorem formatSearchEvent_ok_shape (ev : GEvent) (st en : GTime) (v : JVal)
    (hs : ev.start = some st) (he : ev.end_ = some en)
    (h : formatSearchEvent ev = .ok v) :
    v = JVal.obj [
      ("id", optStr ev.id),
      ("summary", JVal.str (ev.summary.getD "No title")),
      ("start", optStr st.pick),
      ("end", optStr en.pick),
      ("description", JVal.str (ev.description.getD "")),
      ("location", JVal.str (ev.location.getD "")),
      ("html_link", JVal.str (ev.htmlLink.getD ""))] := by
  unfold formatSearchEvent at h
  rw [hs, he] at h
  exact (Except.ok.inj h).symm

/-- A successful formatting forces the start object to be present. -/
theorem formatListEvent_start_isSome (ev : GEvent) (v : JVal)
    (h : formatListEvent ev = .ok v) : ev.start.isSome ∧ ev.end_.isSome := by
  unfold formatListEvent at h
  cases hs : ev.start with
  | none => rw [hs] at h; cases h
  | some st =>
    rw [hs] at h
    cases he : ev.end_ with
    | none => rw [he] at h; cases h
    | some en => exact ⟨rfl, rfl⟩

/-- Formatting succeeds on an event whose start/end objects are present. -/
theorem formatListEvent_isOk (ev : GEvent)
    (hs : ev.start.isSome) (he : ev.end_.isSome) :
    ∃ v, formatListEvent ev = .ok v := by
  obtain ⟨st, hst⟩ := Option.isSome_iff_exists.mp hs
  obtain ⟨en, hen⟩ := Option.isSome_iff_exists.mp he
  exact ⟨_, by unfold formatListEvent; rw [hst, hen]⟩

/-- Search-event formatting succeeds on an event whose start/end objects are
present. -/
theorem formatSearchEvent_isOk (ev : GEvent)
    (hs : ev.start.isSome) (he : ev.end_.isSome) :
    ∃ v, formatSearchEvent ev = .ok v := by
  obtain ⟨st, hst⟩ := Option.isSome_iff_exists.mp hs
  obtain ⟨en, hen⟩ := Option.isSome_iff_exists.mp he
  exact ⟨_, by unfold formatSearchEvent; rw [hst, hen]⟩

/-- When every event formats successfully, the loop returns a result list. -/
theorem mapEvents_ok_of_forall (f : GEvent → Except PyExc JVal) :
    ∀ l : List GEvent, (∀ e ∈ l, ∃ v, f e = .ok v) →
      ∃ res, mapEvents f l = .ok res
  | [], _ => ⟨[], rfl⟩
  | e :: es, h => by
    obtain ⟨v, hv⟩ := h e (List.mem_cons_self e es)
    obtain ⟨res, hres⟩ :=
      mapEvents_ok_of_forall f es (fun x hx => h x (List.mem_cons_of_mem e hx))
    exact ⟨v :: res, by unfold mapEvents; rw [hv, hres]⟩

/-- A successful loop pairs each input event with its formatted record. -/
theorem mapEvents_forall₂ (f : GEvent → Except PyExc JVal) :
    ∀ (l : List GEvent) (res : List JVal), mapEvents f l = .ok res →
      List.Forall₂ (fun e v => f e = .ok v) l res
  | [], res, h => by
    unfold mapEvents at h
    cases h
    exact List.Forall₂.nil
  | e :: es, res, h => by
    unfold mapEvents at h
    cases hf : f e with
    | error x => rw [hf] at h; cases h
    | ok v =>
      rw [hf] at h
      cases hrest : mapEvents f es with
      | error x => rw [hrest] at h; cases h
      | ok vs =>
        rw [hrest] at h
        cases h
        exact List.Forall₂.cons hf (mapEvents_forall₂ f es vs hrest)

/-- A member of the right list of a `Forall₂` has a related partner on the
left. -/
theorem forall₂_mem_right {α β : Type _} {R : α → β → Prop}
    {l : List α} {m : List β}
    (h : List.Forall₂ R l m) {b : β} (hb : b ∈ m) : ∃ a ∈ l, R a b := by
  induction h with
  | nil => cases hb
  | cons hR _ ih =>
    rcases List.mem_cons.mp hb with hb1 | hb2
    · exact ⟨_, List.mem_cons_self _ _, hb1 ▸ hR⟩
    · obtain ⟨a, ha, hr⟩ := ih hb2
      exact ⟨a, List.mem_cons_of_mem _ ha, hr⟩

/-- Pairing each element of a list with its own image under `f`. -/
theorem forall₂_self_map {α β : Type _} (f : α → β) (R : α → β → Prop)
    (h : ∀ a, R a (f a)) : ∀ l : List α, List.Forall₂ R l (l.map f)
  | [] => List.Forall₂.nil
  | a :: as => List.Forall₂.cons (h a) (forall₂_self_map f R h as)

/-- In the flattened attendee list built by the list-shaped operations, an
attendee without an email yields a null entry. -/
theorem attendeeVals_null_of_no_email (l : List GAttendee) :
    List.Forall₂ (fun (a : GAttendee) (x : JVal) =>
      a.email = none → x = JVal.null)
      l (l.map fun a => optStr a.email) := by
  refine forall₂_self_map _ _ ?_ l
  intro a
  beta_reduce
  intro hn
  rw [hn]
  rfl

/-- In the detailed attendee objects built by `get_event_details`, fields
absent from the provider attendee yield their defaults: a null email and
empty display name and response status. -/
theorem attendeeObjs_detail_defaults (l : List GAttendee) :
    List.Forall₂ (fun (a : GAttendee) (x : JVal) =>
      (a.email = none → x.getField "email" = some JVal.null) ∧
      (a.displayName = none →
        x.getField "displayName" = some (JVal.str "")) ∧
      (a.responseStatus = none →
        x.getField "responseStatus" = some (JVal.str "")))
      l (l.map fun a => JVal.obj [
        ("email", optStr a.email),
        ("displayName", JVal.str (a.displayName.getD "")),
        ("responseStatus", JVal.str (a.responseStatus.getD ""))]) := by
  refine forall₂_self_map _ _ ?_ l
  intro a
  beta_reduce
  refine ⟨?_, ?_, ?_⟩ <;>
    · intro hn
      rw [hn]
      rfl

/-- Each formatted calendar record substitutes the documented defaults and
has a null `id` when the provider omits it. -/
theorem formatCalendar_defaults (l : List GCalendar) :
    List.Forall₂ (fun (c : GCalendar) (v : JVal) =>
      v.keys = calendarKeys ∧
      (c.summary = none → v.getField "summary" = some (JVal.str "")) ∧
      (c.description = none →
        v.getField "description" = some (JVal.str "")) ∧
      (c.primary = none → v.getField "primary" = some (JVal.bool false)) ∧
      (c.accessRole = none →
        v.getField "access_role" = some (JVal.str "")) ∧
      (c.backgroundColor = none →
        v.getField "background_color" = some (JVal.str "")) ∧
      (c.foregroundColor = none →
        v.getField "foreground_color" = some (JVal.str "")) ∧
      (c.id = none → v.getField "id" = some JVal.null))
      l (l.map formatCalendar) := by
  refine forall₂_self_map _ _ ?_ l
  intro c
  beta_reduce
  unfold formatCalendar
  refine ⟨rfl, ?_, ?_, ?_, ?_, ?_, ?_, ?_⟩ <;>
    · intro hn
      rw [hn]
      rfl

/-- `optStr` of a present value is never `null`. -/
theorem optStr_ne_null_of_isSome (o : Option String) (h : o.isSome) :
    optStr o ≠ JVal.null := by
  obtain ⟨s, hs⟩ := Option.isSome_iff_exists.mp h
  rw [hs]
  intro hcontra
  cases hcontra

/-- Mapping `optStr ∘ email` over attendees that all have an email yields a
list of bare strings. -/
theorem attendee_emails_are_strings :
    ∀ l : List GAttendee, (∀ a ∈ l, a.email.isSome) →
      ∃ emails : List String,
        l.map (fun a => optStr a.email) = emails.map JVal.str
  | [], _ => ⟨[], rfl⟩
  | a :: rest, h => by
    obtain ⟨s, hs⟩ :=
      Option.isSome_iff_exists.mp (h a (List.mem_cons_self a rest))
    obtain ⟨emails, hrest⟩ := attendee_emails_are_strings rest
      (fun x hx => h x (List.mem_cons_of_mem a hx))
    exact ⟨s :: emails, by rw [List.map_cons, List.map_cons, hs, hrest]; rfl⟩

/-- A successful search-event formatting forces the start/end objects to be
present. -/
theorem formatSearchEvent_start_isSome (ev : GEvent) (v : JVal)
    (h : formatSearchEvent ev = .ok v) :
    ev.start.isSome ∧ ev.end_.isSome := by
  unfold formatSearchEvent at h
  cases hs : ev.start with
  | none => rw [hs] at h; cases h
  | some st =>
    rw [hs] at h
    cases he : ev.end_ with
    | none => rw [he] at h; cases h
    | some en => exact ⟨rfl, rfl⟩

/-- When a start/end object carries at least one of its two fields, the
extracted value is present. -/
theorem GTime.pick_isSome (t : GTime)
    (h : t.dateTime.isSome ∨ t.date.isSome) : t.pick.isSome := by
  unfold GTime.pick
  cases hd : t.dateTime with
  | some s => rfl
  | none =>
    cases h with
    | inl h1 => rw [hd] at h1; cases h1
    | inr h2 => exact h2

/-- `optStr` of a present value is never the `null` payload of a field. -/
theorem some_optStr_ne_some_null (o : Option String) (h : o.isSome) :
    some (optStr o) ≠ some JVal.null := by
  intro heq
  exact optStr_ne_null_of_isSome o h (Option.some.inj heq)

/-- The error message built by the handlers is never empty. -/
theorem errMsg_ne_empty (e : String) : ("An error occurred: " ++ e) ≠ "" := by
  intro h
  have h2 : ("An error occurred: " ++ e).data = ("" : String).data :=
    congrArg String.data h
  rw [String.data_append] at h2
  exact absurd (List.append_eq_nil.mp h2).1 (by simp)

/-! The claims. -/

/-- C1 fails as stated: a provider response containing an event without a
`start` object makes `list_upcoming_events` raise `KeyError` — the
subscript `event["start"]` on line 73 is not protected by the
`except HttpError` handler — so an exception that is not an
`AuthenticationFailure` crosses the operation boundary instead of being
converted to the normalized error object. -/
theorem claim1_counterexample :
    list_upcoming_events "2024-06-01T00:00:00Z" 10 "primary"
      (fun _ => Except.ok ⟨some [emptyEvent]⟩)
      = Except.error (PyExc.keyError "start") := rfl

/-- C1 (amended): only `HttpError` raised by the remote call is converted to
the normalized error result, for every operation; when every event of a
successful response carries its `start` and `end` objects, no exception
escapes any operation either — but an event lacking one of those objects
raises an uncaught `KeyError` (see the counterexample). -/
theorem claim1_amended :
    (∀ now n cid svc e, svc (upcomingRequest now n cid) = Except.error e →
      list_upcoming_events now n cid svc = Except.ok [errObj e]) ∧
    (∀ q n cid svc e, svc (searchRequest q n cid) = Except.error e →
      search_events q n cid svc = Except.ok [errObj e]) ∧
    (∀ s t cid n svc e, svc (rangeRequest s t cid n) = Except.error e →
      get_events_in_date_range s t cid n svc = Except.ok [errObj e]) ∧
    (∀ eid cid svc e, svc cid eid = Except.error e →
      get_event_details eid cid svc = Except.ok (errObj e)) ∧
    (∀ su sd ed de lo atts cid svc e,
      svc cid (createEventBody su sd ed de lo atts) = Except.error e →
      create_event su sd ed de lo atts cid svc = Except.ok (errObj e)) ∧
    (∀ svc e, svc () = Except.error e →
      list_calendars svc = Except.ok [errObj e]) ∧
    (∀ now n cid svc page, svc (upcomingRequest now n cid) = Except.ok page →
      (∀ ev ∈ page.items.getD [], ev.start.isSome ∧ ev.end_.isSome) →
      ∃ res, list_upcoming_events now n cid svc = Except.ok res) ∧
    (∀ q n cid svc page, svc (searchRequest q n cid) = Except.ok page →
      (∀ ev ∈ page.items.getD [], ev.start.isSome ∧ ev.end_.isSome) →
      ∃ res, search_events q n cid svc = Except.ok res) ∧
    (∀ s t cid n svc page, svc (rangeRequest s t cid n) = Except.ok page →
      (∀ ev ∈ page.items.getD [], ev.start.isSome ∧ ev.end_.isSome) →
      ∃ res, get_events_in_date_range s t cid n svc = Except.ok res) ∧
    (∀ eid cid svc ev, svc cid eid = Except.ok ev →
      ev.start.isSome → ev.end_.isSome →
      ∃ v, get_event_details eid cid svc = Except.ok v) ∧
    (∀ su sd ed de lo atts cid svc ev,
      svc cid (createEventBody su sd ed de lo atts) = Except.ok ev →
      ev.start.isSome → ev.end_.isSome →
      ∃ v, create_event su sd ed de lo atts cid svc = Except.ok v) ∧
    (∀ svc page, svc () = Except.ok page →
      ∃ res, list_calendars svc = Except.ok res) := by
  refine ⟨?_, ?_, ?_, ?_, ?_, ?_, ?_, ?_, ?_, ?_, ?_, ?_⟩
  · intro now n cid svc e h
    simp [list_upcoming_events, h]
  · intro q n cid svc e h
    simp [search_events, h]
  · intro s t cid n svc e h
    simp [get_events_in_date_range, h]
  · intro eid cid svc e h
    simp [get_event_details, h]
  · intro su sd ed de lo atts cid svc e h
    simp [create_event, h]
  · intro svc e h
    simp [list_calendars, h]
  · intro now n cid svc page h hwf
    obtain ⟨res, hres⟩ := mapEvents_ok_of_forall formatListEvent _
      (fun ev hev => formatListEvent_isOk ev (hwf ev hev).1 (hwf ev hev).2)
    exact ⟨res, by simp only [list_upcoming_events, h]; exact hres⟩
  · intro q n cid svc page h hwf
    obtain ⟨res, hres⟩ := mapEvents_ok_of_forall formatSearchEvent _
      (fun ev hev => formatSearchEvent_isOk ev (hwf ev hev).1 (hwf ev hev).2)
    exact ⟨res, by simp only [search_events, h]; exact hres⟩
  · intro s t cid n svc page h hwf
    obtain ⟨res, hres⟩ := mapEvents_ok_of_forall formatListEvent _
      (fun ev hev => formatListEvent_isOk ev (hwf ev hev).1 (hwf ev hev).2)
    exact ⟨res, by simp only [get_events_in_date_range, h]; exact hres⟩
  · intro eid cid svc ev h hs he
    obtain ⟨st, hst⟩ := Option.isSome_iff_exists.mp hs
    obtain ⟨en, hen⟩ := Option.isSome_iff_exists.mp he
    cases hres : get_event_details eid cid svc with
    | ok v => exact ⟨v, rfl⟩
    | error x =>
      exfalso
      simp only [get_event_details, h, hst, hen] at hres
      cases hres
  · intro su sd ed de lo atts cid svc ev h hs he
    obtain ⟨st, hst⟩ := Option.isSome_iff_exists.mp hs
    obtain ⟨en, hen⟩ := Option.isSome_iff_exists.mp he
    cases hres : create_event su sd ed de lo atts cid svc with
    | ok v => exact ⟨v, rfl⟩
    | error x =>
      exfalso
      simp only [create_event, h, hst, hen] at hres
      cases hres
  · intro svc page h
    exact ⟨(page.items.getD []).map formatCalendar,
      by simp [list_calendars, h]⟩

/-- Witness for `claim1_amended`: a concrete failing remote call is
normalized, and a concrete well-formed response produces a result with no
exception. -/
theorem claim1_amended_witness :
    list_upcoming_events "2024-06-01T00:00:00Z" 10 "primary"
        (fun _ => Except.error "404 not found")
      = Except.ok [errObj "404 not found"] ∧
    ∃ res, get_events_in_date_range "2024-01-01T00:00:00Z"
        "2024-01-02T00:00:00Z" "primary" 100
        (fun _ => Except.ok ⟨some [rangeEvent]⟩) = Except.ok res :=
  ⟨claim1_amended.1 "2024-06-01T00:00:00Z" 10 "primary" _ "404 not found" rfl,
   claim1_amended.2.2.2.2.2.2.2.2.1 "2024-01-01T00:00:00Z"
     "2024-01-02T00:00:00Z" "primary" 100 _ _ rfl (by decide)⟩

/-- C2 fails as stated: `get_event_details` reads `id` with `.get` and no
default (line 108), so a provider event without an `id` key yields a record
whose `id` field is Python `None` — a null field, which the claim rules
out. -/
theorem claim2_counterexample :
    okField (get_event_details "ev1" "primary"
      (fun _ _ => Except.ok eventNoId)) "id" = some JVal.null := rfl

/-- C2 (amended): for every operation, absent provider fields that have a
documented default are substituted as documented — "No title" for the
event title, empty string for description, location, permalink, attendee
display name and response status and the calendar-list string fields,
`false` for the calendar `primary` flag, an empty sequence for attendee
lists — and the per-operation key set never misses a key; but fields read
with `.get` and no default (`id`; `created`, `updated` and
`recurring_event_id` of `get_event_details`; attendee `email`; and
`create_event`'s copied `id`, `summary`, `html_link` and dateTime-only
`start`/`end`) are null when the provider omits them. -/
theorem claim2_amended :
    (∀ eid cid svc ev st en v, svc cid eid = Except.ok ev →
      ev.start = some st → ev.end_ = some en →
      get_event_details eid cid svc = Except.ok v →
      v.keys = detailEventKeys ∧
      (ev.summary = none → v.getField "summary" = some (JVal.str "No title")) ∧
      (ev.description = none → v.getField "description" = some (JVal.str "")) ∧
      (ev.location = none → v.getField "location" = some (JVal.str "")) ∧
      (ev.htmlLink = none → v.getField "html_link" = some (JVal.str "")) ∧
      (ev.attendees = none → v.getField "attendees" = some (JVal.list [])) ∧
      (ev.id = none → v.getField "id" = some JVal.null) ∧
      (ev.created = none → v.getField "created" = some JVal.null) ∧
      (ev.updated = none → v.getField "updated" = some JVal.null) ∧
      (ev.recurringEventId = none →
        v.getField "recurring_event_id" = some JVal.null) ∧
      (∀ xs, v.getField "attendees" = some (JVal.list xs) →
        List.Forall₂ (fun (a : GAttendee) (x : JVal) =>
          (a.email = none → x.getField "email" = some JVal.null) ∧
          (a.displayName = none →
            x.getField "displayName" = some (JVal.str "")) ∧
          (a.responseStatus = none →
            x.getField "responseStatus" = some (JVal.str "")))
          (ev.attendees.getD []) xs)) ∧
    (∀ now n cid svc page res,
      svc (upcomingRequest now n cid) = Except.ok page →
      list_upcoming_events now n cid svc = Except.ok res →
      List.Forall₂ (fun ev v =>
        v.keys = listEventKeys ∧
        (ev.summary = none →
          v.getField "summary" = some (JVal.str "No title")) ∧
        (ev.description = none →
          v.getField "description" = some (JVal.str "")) ∧
        (ev.location = none → v.getField "location" = some (JVal.str "")) ∧
        (ev.htmlLink = none → v.getField "html_link" = some (JVal.str "")) ∧
        (ev.attendees = none → v.getField "attendees" = some (JVal.list [])) ∧
        (ev.id = none → v.getField "id" = some JVal.null) ∧
        (∀ xs, v.getField "attendees" = some (JVal.list xs) →
          List.Forall₂ (fun (a : GAttendee) (x : JVal) =>
            a.email = none → x = JVal.null) (ev.attendees.getD []) xs))
        (page.items.getD []) res) ∧
    (∀ q n cid svc page res,
      svc (searchRequest q n cid) = Except.ok page →
      search_events q n cid svc = Except.ok res →
      List.Forall₂ (fun ev v =>
        v.keys = searchEventKeys ∧
        (ev.summary = none →
          v.getField "summary" = some (JVal.str "No title")) ∧
        (ev.description = none →
          v.getField "description" = some (JVal.str "")) ∧
        (ev.location = none → v.getField "location" = some (JVal.str "")) ∧
        (ev.htmlLink = none → v.getField "html_link" = some (JVal.str "")) ∧
        (ev.id = none → v.getField "id" = some JVal.null))
        (page.items.getD []) res) ∧
    (∀ s t cid n svc page res,
      svc (rangeRequest s t cid n) = Except.ok page →
      get_events_in_date_range s t cid n svc = Except.ok res →
      List.Forall₂ (fun ev v =>
        v.keys = listEventKeys ∧
        (ev.summary = none →
          v.getField "summary" = some (JVal.str "No title")) ∧
        (ev.description = none →
          v.getField "description" = some (JVal.str "")) ∧
        (ev.location = none → v.getField "location" = some (JVal.str "")) ∧
        (ev.htmlLink = none → v.getField "html_link" = some (JVal.str "")) ∧
        (ev.attendees = none → v.getField "attendees" = some (JVal.list [])) ∧
        (ev.id = none → v.getField "id" = some JVal.null) ∧
        (∀ xs, v.getField "attendees" = some (JVal.list xs) →
          List.Forall₂ (fun (a : GAttendee) (x : JVal) =>
            a.email = none → x = JVal.null) (ev.attendees.getD []) xs))
        (page.items.getD []) res) ∧
    (∀ su sd ed de lo atts cid svc ev st en v,
      svc cid (createEventBody su sd ed de lo atts) = Except.ok ev →
      ev.start = some st → ev.end_ = some en →
      create_event su sd ed de lo atts cid svc = Except.ok v →
      v.keys = createdEventKeys ∧
      (ev.id = none → v.getField "id" = some JVal.null) ∧
      (ev.summary = none → v.getField "summary" = some JVal.null) ∧
      (ev.htmlLink = none → v.getField "html_link" = some JVal.null) ∧
      (st.dateTime = none → v.getField "start" = some JVal.null) ∧
      (en.dateTime = none → v.getField "end" = some JVal.null)) ∧
    (∀ svc page res, svc () = Except.ok page →
      list_calendars svc = Except.ok res →
      List.Forall₂ (fun (c : GCalendar) (v : JVal) =>
        v.keys = calendarKeys ∧
        (c.summary = none → v.getField "summary" = some (JVal.str "")) ∧
        (c.description = none →
          v.getField "description" = some (JVal.str "")) ∧
        (c.primary = none → v.getField "primary" = some (JVal.bool false)) ∧
        (c.accessRole = none →
          v.getField "access_role" = some (JVal.str "")) ∧
        (c.backgroundColor = none →
          v.getField "background_color" = some (JVal.str "")) ∧
        (c.foregroundColor = none →
          v.getField "foreground_color" = some (JVal.str "")) ∧
        (c.id = none → v.getField "id" = some JVal.null))
        (page.items.getD []) res) := by
  refine ⟨?_, ?_, ?_, ?_, ?_, ?_⟩
  · intro eid cid svc ev st en v h hst hen hres
    simp only [get_event_details, h, hst, hen] at hres
    injection hres with hv
    subst hv
    refine ⟨rfl, ?_, ?_, ?_, ?_, ?_, ?_, ?_, ?_, ?_, ?_⟩
    · intro hnone; rw [hnone]; rfl
    · intro hnone; rw [hnone]; rfl
    · intro hnone; rw [hnone]; rfl
    · intro hnone; rw [hnone]; rfl
    · intro hnone; rw [hnone]; rfl
    · intro hnone; rw [hnone]; rfl
    · intro hnone; rw [hnone]; rfl
    · intro hnone; rw [hnone]; rfl
    · intro hnone; rw [hnone]; rfl
    · intro xs hxs
      have hxs2 : some (JVal.list ((ev.attendees.getD []).map
          (fun a => JVal.obj [
            ("email", optStr a.email),
            ("displayName", JVal.str (a.displayName.getD "")),
            ("responseStatus", JVal.str (a.responseStatus.getD ""))])))
          = some (JVal.list xs) := hxs
      injection hxs2 with h1
      injection h1 with h2
      subst h2
      exact attendeeObjs_detail_defaults _
  · intro now n cid svc page res h hres
    simp only [list_upcoming_events, h] at hres
    refine List.Forall₂.imp ?_ (mapEvents_forall₂ formatListEvent _ _ hres)
    intro ev v hfmt
    obtain ⟨hs, he⟩ := formatListEvent_start_isSome ev v hfmt
    obtain ⟨st, hst⟩ := Option.isSome_iff_exists.mp hs
    obtain ⟨en, hen⟩ := Option.isSome_iff_exists.mp he
    have hv := formatListEvent_ok_shape ev st en v hst hen hfmt
    subst hv
    refine ⟨rfl, ?_, ?_, ?_, ?_, ?_, ?_, ?_⟩
    · intro hnone; rw [hnone]; rfl
    · intro hnone; rw [hnone]; rfl
    · intro hnone; rw [hnone]; rfl
    · intro hnone; rw [hnone]; rfl
    · intro hnone; rw [hnone]; rfl
    · intro hnone; rw [hnone]; rfl
    · intro xs hxs
      have hxs2 : some (JVal.list ((ev.attendees.getD []).map
          (fun a => optStr a.email))) = some (JVal.list xs) := hxs
      injection hxs2 with h1
      injection h1 with h2
      subst h2
      exact attendeeVals_null_of_no_email _
  · intro q n cid svc page res h hres
    simp only [search_events, h] at hres
    refine List.Forall₂.imp ?_ (mapEvents_forall₂ formatSearchEvent _ _ hres)
    intro ev v hfmt
    obtain ⟨hs, he⟩ := formatSearchEvent_start_isSome ev v hfmt
    obtain ⟨st, hst⟩ := Option.isSome_iff_exists.mp hs
    obtain ⟨en, hen⟩ := Option.isSome_iff_exists.mp he
    have hv := formatSearchEvent_ok_shape ev st en v hst hen hfmt
    subst hv
    refine ⟨rfl, ?_, ?_, ?_, ?_, ?_⟩ <;>
      · intro hnone
        rw [hnone]
        rfl
  · intro s t cid n svc page res h hres
    simp only [get_events_in_date_range, h] at hres
    refine List.Forall₂.imp ?_ (mapEvents_forall₂ formatListEvent _ _ hres)
    intro ev v hfmt
    obtain ⟨hs, he⟩ := formatListEvent_start_isSome ev v hfmt
    obtain ⟨st, hst⟩ := Option.isSome_iff_exists.mp hs
    obtain ⟨en, hen⟩ := Option.isSome_iff_exists.mp he
    have hv := formatListEvent_ok_shape ev st en v hst hen hfmt
    subst hv
    refine ⟨rfl, ?_, ?_, ?_, ?_, ?_, ?_, ?_⟩
    · intro hnone; rw [hnone]; rfl
    · intro hnone; rw [hnone]; rfl
    · intro hnone; rw [hnone]; rfl
    · intro hnone; rw [hnone]; rfl
    · intro hnone; rw [hnone]; rfl
    · intro hnone; rw [hnone]; rfl
    · intro xs hxs
      have hxs2 : some (JVal.list ((ev.attendees.getD []).map
          (fun a => optStr a.email))) = some (JVal.list xs) := hxs
      injection hxs2 with h1
      injection h1 with h2
      subst h2
      exact attendeeVals_null_of_no_email _
  · intro su sd ed de lo atts cid svc ev st en v h hst hen hres
    simp only [create_event, h, hst, hen] at hres
    injection hres with hv
    subst hv
    refine ⟨rfl, ?_, ?_, ?_, ?_, ?_⟩ <;>
      · intro hnone
        rw [hnone]
        rfl
  · intro svc page res h hres
    simp only [list_calendars, h] at hres
    injection hres with hlist
    subst hlist
    exact formatCalendar_defaults _

/-- Witness for `claim2_amended` at a concrete provider event that lacks
`id`, `description` and `attendees` but has a title, and at a concrete
all-day `create_event` response. -/
theorem claim2_amended_witness :
    detailRecordNoId.keys = detailEventKeys ∧
    detailRecordNoId.getField "description" = some (JVal.str "") ∧
    detailRecordNoId.getField "attendees" = some (JVal.list []) ∧
    detailRecordNoId.getField "id" = some JVal.null ∧
    createdAllDayRecord.getField "start" = some JVal.null := by
  have h := claim2_amended.1 "ev1" "primary" (fun _ _ => Except.ok eventNoId)
    eventNoId (timedTime "2024-01-01T10:00:00Z")
    (timedTime "2024-01-01T11:00:00Z") detailRecordNoId rfl rfl rfl rfl
  have h5 := claim2_amended.2.2.2.2.1 "Holiday" "2024-01-01" "2024-01-02"
    "" "" none "primary" (fun _ _ => Except.ok allDayEvent) allDayEvent
    (allDayTime "2024-01-01") (allDayTime "2024-01-02") createdAllDayRecord
    rfl rfl rfl rfl
  exact ⟨h.1, h.2.2.1 rfl, h.2.2.2.2.2.1 rfl, h.2.2.2.2.2.2.1 rfl,
    h5.2.2.2.2.1 rfl⟩

/-- C3 fails as stated: `create_event` reads only `dateTime` from the
returned start/end (lines 178–179), with no fallback to the all-day `date`
field, so for a provider response describing an all-day event the returned
`start` is null instead of the date value. -/
theorem claim3_counterexample :
    okField (create_event "Holiday" "2024-01-01" "2024-01-02" "" "" none
      "primary" (fun _ _ => Except.ok allDayEvent)) "start"
      = some JVal.null := rfl

/-- C3 (amended): the extraction policy `dateTime` when present, else
`date`, holds for `list_upcoming_events`, `search_events`,
`get_events_in_date_range` and `get_event_details`, whose `start`/`end` are
non-null whenever at least one of the two provider fields is present;
`create_event`, however, copies only the `dateTime` value, with no `date`
fallback. -/
theorem claim3_amended :
    (∀ t : GTime, (∀ s, t.dateTime = some s → t.pick = some s) ∧
      (t.dateTime = none → t.pick = t.date)) ∧
    (∀ now n cid svc page res,
      svc (upcomingRequest now n cid) = Except.ok page →
      list_upcoming_events now n cid svc = Except.ok res →
      List.Forall₂ (fun ev v => ∃ st en,
        ev.start = some st ∧ ev.end_ = some en ∧
        v.getField "start" = some (optStr st.pick) ∧
        v.getField "end" = some (optStr en.pick) ∧
        ((st.dateTime.isSome ∨ st.date.isSome) →
          v.getField "start" ≠ some JVal.null) ∧
        ((en.dateTime.isSome ∨ en.date.isSome) →
          v.getField "end" ≠ some JVal.null))
        (page.items.getD []) res) ∧
    (∀ q n cid svc page res,
      svc (searchRequest q n cid) = Except.ok page →
      search_events q n cid svc = Except.ok res →
      List.Forall₂ (fun ev v => ∃ st en,
        ev.start = some st ∧ ev.end_ = some en ∧
        v.getField "start" = some (optStr st.pick) ∧
        v.getField "end" = some (optStr en.pick) ∧
        ((st.dateTime.isSome ∨ st.date.isSome) →
          v.getField "start" ≠ some JVal.null) ∧
        ((en.dateTime.isSome ∨ en.date.isSome) →
          v.getField "end" ≠ some JVal.null))
        (page.items.getD []) res) ∧
    (∀ s t cid n svc page res,
      svc (rangeRequest s t cid n) = Except.ok page →
      get_events_in_date_range s t cid n svc = Except.ok res →
      List.Forall₂ (fun ev v => ∃ st en,
        ev.start = some st ∧ ev.end_ = some en ∧
        v.getField "start" = some (optStr st.pick) ∧
        v.getField "end" = some (optStr en.pick) ∧
        ((st.dateTime.isSome ∨ st.date.isSome) →
          v.getField "start" ≠ some JVal.null) ∧
        ((en.dateTime.isSome ∨ en.date.isSome) →
          v.getField "end" ≠ some JVal.null))
        (page.items.getD []) res) ∧
    (∀ eid cid svc ev st en v, svc cid eid = Except.ok ev →
      ev.start = some st → ev.end_ = some en →
      get_event_details eid cid svc = Except.ok v →
      v.getField "start" = some (optStr st.pick) ∧
      v.getField "end" = some (optStr en.pick) ∧
      ((st.dateTime.isSome ∨ st.date.isSome) →
        v.getField "start" ≠ some JVal.null)) ∧
    (∀ su sd ed de lo atts cid svc ev st en v,
      svc cid (createEventBody su sd ed de lo atts) = Except.ok ev →
      ev.start = some st → ev.end_ = some en →
      create_event su sd ed de lo atts cid svc = Except.ok v →
      v.getField "start" = some (optStr st.dateTime) ∧
      v.getField "end" = some (optStr en.dateTime)) := by
  refine ⟨?_, ?_, ?_, ?_, ?_, ?_⟩
  · intro t
    constructor
    · intro s hs
      unfold GTime.pick
      rw [hs]
      rfl
    · intro hn
      unfold GTime.pick
      rw [hn]
      rfl
  · intro now n cid svc page res h hres
    simp only [list_upcoming_events, h] at hres
    refine List.Forall₂.imp ?_ (mapEvents_forall₂ formatListEvent _ _ hres)
    intro ev v hfmt
    obtain ⟨hs, he⟩ := formatListEvent_start_isSome ev v hfmt
    obtain ⟨st, hst⟩ := Option.isSome_iff_exists.mp hs
    obtain ⟨en, hen⟩ := Option.isSome_iff_exists.mp he
    have hv := formatListEvent_ok_shape ev st en v hst hen hfmt
    subst hv
    exact ⟨st, en, hst, hen, rfl, rfl,
      fun hd => some_optStr_ne_some_null st.pick (GTime.pick_isSome st hd),
      fun hd => some_optStr_ne_some_null en.pick (GTime.pick_isSome en hd)⟩
  · intro q n cid svc page res h hres
    simp only [search_events, h] at hres
    refine List.Forall₂.imp ?_ (mapEvents_forall₂ formatSearchEvent _ _ hres)
    intro ev v hfmt
    obtain ⟨hs, he⟩ := formatSearchEvent_start_isSome ev v hfmt
    obtain ⟨st, hst⟩ := Option.isSome_iff_exists.mp hs
    obtain ⟨en, hen⟩ := Option.isSome_iff_exists.mp he
    have hv := formatSearchEvent_ok_shape ev st en v hst hen hfmt
    subst hv
    exact ⟨st, en, hst, hen, rfl, rfl,
      fun hd => some_optStr_ne_some_null st.pick (GTime.pick_isSome st hd),
      fun hd => some_optStr_ne_some_null en.pick (GTime.pick_isSome en hd)⟩
  · intro s t cid n svc page res h hres
    simp only [get_events_in_date_range, h] at hres
    refine List.Forall₂.imp ?_ (mapEvents_forall₂ formatListEvent _ _ hres)
    intro ev v hfmt
    obtain ⟨hs, he⟩ := formatListEvent_start_isSome ev v hfmt
    obtain ⟨st, hst⟩ := Option.isSome_iff_exists.mp hs
    obtain ⟨en, hen⟩ := Option.isSome_iff_exists.mp he
    have hv := formatListEvent_ok_shape ev st en v hst hen hfmt
    subst hv
    exact ⟨st, en, hst, hen, rfl, rfl,
      fun hd => some_optStr_ne_some_null st.pick (GTime.pick_isSome st hd),
      fun hd => some_optStr_ne_some_null en.pick (GTime.pick_isSome en hd)⟩
  · intro eid cid svc ev st en v h hst hen hres
    simp only [get_event_details, h, hst, hen] at hres
    injection hres with hv
    subst hv
    exact ⟨rfl, rfl,
      fun hd => some_optStr_ne_some_null st.pick (GTime.pick_isSome st hd)⟩
  · intro su sd ed de lo atts cid svc ev st en v h hst hen hres
    simp only [create_event, h, hst, hen] at hres
    injection hres with hv
    subst hv
    exact ⟨rfl, rfl⟩

/-- Witness for `claim3_amended`: a timed event surfaces its `dateTime`
through `get_event_details`, and `create_event` echoes only `dateTime` for
an all-day provider response. -/
theorem claim3_amended_witness :
    detailRecordNoId.getField "start"
      = some (optStr (timedTime "2024-01-01T10:00:00Z").pick) ∧
    createdAllDayRecord.getField "start"
      = some (optStr (allDayTime "2024-01-01").dateTime) :=
  ⟨(claim3_amended.2.2.2.2.1 "ev1" "primary" (fun _ _ => Except.ok eventNoId)
      eventNoId (timedTime "2024-01-01T10:00:00Z")
      (timedTime "2024-01-01T11:00:00Z") detailRecordNoId rfl rfl rfl rfl).1,
   (claim3_amended.2.2.2.2.2 "Holiday" "2024-01-01" "2024-01-02" "" "" none
      "primary" (fun _ _ => Except.ok allDayEvent) allDayEvent
      (allDayTime "2024-01-01") (allDayTime "2024-01-02")
      createdAllDayRecord rfl rfl rfl rfl).1⟩

/-- C4: whenever the remote call fails (an `HttpError` stringified as `e`),
each operation returns exactly the single-key mapping
`{"error": "An error occurred: " ++ e}`, whose message is non-empty, and
the four list-returning operations wrap it in a one-element list. -/
theorem claim4_error_shape :
    (∀ e, ("An error occurred: " ++ e) ≠ "") ∧
    (∀ now n cid svc e, svc (upcomingRequest now n cid) = Except.error e →
      list_upcoming_events now n cid svc = Except.ok
        [JVal.obj [("error", JVal.str ("An error occurred: " ++ e))]]) ∧
    (∀ q n cid svc e, svc (searchRequest q n cid) = Except.error e →
      search_events q n cid svc = Except.ok
        [JVal.obj [("error", JVal.str ("An error occurred: " ++ e))]]) ∧
    (∀ s t cid n svc e, svc (rangeRequest s t cid n) = Except.error e →
      get_events_in_date_range s t cid n svc = Except.ok
        [JVal.obj [("error", JVal.str ("An error occurred: " ++ e))]]) ∧
    (∀ svc e, svc () = Except.error e →
      list_calendars svc = Except.ok
        [JVal.obj [("error", JVal.str ("An error occurred: " ++ e))]]) ∧
    (∀ eid cid svc e, svc cid eid = Except.error e →
      get_event_details eid cid svc = Except.ok
        (JVal.obj [("error", JVal.str ("An error occurred: " ++ e))])) ∧
    (∀ su sd ed de lo atts cid svc e,
      svc cid (createEventBody su sd ed de lo atts) = Except.error e →
      create_event su sd ed de lo atts cid svc = Except.ok
        (JVal.obj [("error", JVal.str ("An error occurred: " ++ e))])) := by
  refine ⟨errMsg_ne_empty, ?_, ?_, ?_, ?_, ?_, ?_⟩
  · intro now n cid svc e h
    simp [list_upcoming_events, h, errObj]
  · intro q n cid svc e h
    simp [search_events, h, errObj]
  · intro s t cid n svc e h
    simp [get_events_in_date_range, h, errObj]
  · intro svc e h
    simp [list_calendars, h, errObj]
  · intro eid cid svc e h
    simp [get_event_details, h, errObj]
  · intro su sd ed de lo atts cid svc e h
    simp [create_event, h, errObj]

/-- Witness for `claim4_error_shape` at a concrete failing call. -/
theorem claim4_error_shape_witness :
    get_event_details "ev1" "primary" (fun _ _ => Except.error "403 forbidden")
      = Except.ok (JVal.obj [("error",
          JVal.str ("An error occurred: " ++ "403 forbidden"))]) :=
  claim4_error_shape.2.2.2.2.2.1 "ev1" "primary" _ "403 forbidden" rfl

/-- C5 fails as stated: on a success whose provider response carries no
`id` key, the record's `status` is "created" yet its `id` is null — the
code copies `event.get("id")` without guaranteeing it non-empty. -/
theorem claim5_counterexample :
    okField (create_event "Team sync" "2024-01-01T10:00:00Z"
        "2024-01-01T11:00:00Z" "" "" none "primary"
        (fun _ _ => Except.ok eventNoId)) "status"
      = some (JVal.str "created") ∧
    okField (create_event "Team sync" "2024-01-01T10:00:00Z"
        "2024-01-01T11:00:00Z" "" "" none "primary"
        (fun _ _ => Except.ok eventNoId)) "id" = some JVal.null :=
  ⟨rfl, rfl⟩

/-- C5 (amended): on success `create_event` returns `status` = "created"
and echoes the provider's `id` verbatim (null when the provider omits it,
not guaranteed non-empty); on any remote failure the result is the
single-key error mapping, with no `id` and no `status` key, so `status` =
"created" still appears only on success. -/
theorem claim5_amended :
    (∀ su sd ed de lo atts cid svc e,
      svc cid (createEventBody su sd ed de lo atts) = Except.error e →
      create_event su sd ed de lo atts cid svc = Except.ok (errObj e) ∧
      (errObj e).getField "id" = none ∧
      (errObj e).getField "status" = none ∧
      (errObj e).keys = ["error"]) ∧
    (∀ su sd ed de lo atts cid svc ev st en v,
      svc cid (createEventBody su sd ed de lo atts) = Except.ok ev →
      ev.start = some st → ev.end_ = some en →
      create_event su sd ed de lo atts cid svc = Except.ok v →
      v.getField "status" = some (JVal.str "created") ∧
      v.getField "id" = some (optStr ev.id)) := by
  constructor
  · intro su sd ed de lo atts cid svc e h
    refine ⟨by simp [create_event, h], rfl, rfl, rfl⟩
  · intro su sd ed de lo atts cid svc ev st en v h hst hen hres
    simp only [create_event, h, hst, hen] at hres
    injection hres with hv
    subst hv
    exact ⟨rfl, rfl⟩

/-- Witness for `claim5_amended`: a failing insert yields the bare error
mapping; a successful insert without a provider `id` yields `status` =
"created" with a null id. -/
theorem claim5_amended_witness :
    create_event "Team sync" "2024-01-01T10:00:00Z" "2024-01-01T11:00:00Z"
        "" "" none "primary" (fun _ _ => Except.error "500 backend error")
      = Except.ok (errObj "500 backend error") ∧
    createdRecordNoId.getField "status" = some (JVal.str "created") ∧
    createdRecordNoId.getField "id" = some (optStr eventNoId.id) :=
  ⟨(claim5_amended.1 "Team sync" "2024-01-01T10:00:00Z"
      "2024-01-01T11:00:00Z" "" "" none "primary" _
      "500 backend error" rfl).1,
   claim5_amended.2 "Team sync" "2024-01-01T10:00:00Z"
      "2024-01-01T11:00:00Z" "" "" none "primary"
      (fun _ _ => Except.ok eventNoId) eventNoId
      (timedTime "2024-01-01T10:00:00Z") (timedTime "2024-01-01T11:00:00Z")
      createdRecordNoId rfl rfl rfl rfl⟩

/-- C6: with a persisted credential whose access token is expired but whose
refresh token is present and non-empty, the credential-acquisition step of
`get_calendar_service` refreshes the token, persists the refreshed
credential to the token file, returns a valid non-expired credential, and
never runs the interactive grant flow. -/
theorem claim6_refresh (c : Credential) (r newToken : String)
    (flowCreds : Credential)
    (hexp : c.expired = true) (href : c.refreshToken = some r)
    (hr : r ≠ "") :
    (obtainCredential (some c) newToken flowCreds).ranInteractive = false ∧
    (obtainCredential (some c) newToken flowCreds).creds
      = c.refresh newToken ∧
    (obtainCredential (some c) newToken flowCreds).creds.expired = false ∧
    (obtainCredential (some c) newToken flowCreds).creds.valid = true ∧
    (obtainCredential (some c) newToken flowCreds).tokenFile
      = some ((obtainCredential (some c) newToken flowCreds).creds) := by
  have hie : r.isEmpty = false := by
    cases hi : r.isEmpty with
    | false => rfl
    | true => exact absurd ((String.isEmpty_iff r).mp hi) hr
  have hvalid : c.valid = false := by
    simp [Credential.valid, hexp]
  have htruthy : truthy c.refreshToken = true := by
    rw [href]
    simp [truthy, hie]
  simp [obtainCredential, hvalid, hexp, htruthy, Credential.refresh,
    Credential.valid]

/-- Witness for `claim6_refresh` at a concrete expired credential. -/
theorem claim6_refresh_witness :
    (obtainCredential (some ⟨some "stale", true, some "refresh-1"⟩) "fresh"
      ⟨some "flow", false, none⟩).ranInteractive = false ∧
    (obtainCredential (some ⟨some "stale", true, some "refresh-1"⟩) "fresh"
      ⟨some "flow", false, none⟩).creds
      = Credential.refresh ⟨some "stale", true, some "refresh-1"⟩ "fresh" ∧
    (obtainCredential (some ⟨some "stale", true, some "refresh-1"⟩) "fresh"
      ⟨some "flow", false, none⟩).creds.expired = false ∧
    (obtainCredential (some ⟨some "stale", true, some "refresh-1"⟩) "fresh"
      ⟨some "flow", false, none⟩).creds.valid = true ∧
    (obtainCredential (some ⟨some "stale", true, some "refresh-1"⟩) "fresh"
      ⟨some "flow", false, none⟩).tokenFile
      = some ((obtainCredential (some ⟨some "stale", true, some "refresh-1"⟩)
          "fresh" ⟨some "flow", false, none⟩).creds) :=
  claim6_refresh ⟨some "stale", true, some "refresh-1"⟩ "refresh-1" "fresh"
    ⟨some "flow", false, none⟩ rfl rfl (by decide)

/-- C7: `get_event_details` is deterministic in the provider response — two
calls with the same event id and calendar id for which the remote
`events.get` call returns the same event resource produce identical
normalized output. -/
theorem claim7_idempotent (event_id calendar_id : String)
    (svc1 svc2 : String → String → Except String GEvent)
    (h : svc1 calendar_id event_id = svc2 calendar_id event_id) :
    get_event_details event_id calendar_id svc1 =
      get_event_details event_id calendar_id svc2 := by
  unfold get_event_details
  rw [h]

/-- Witness for `claim7_idempotent` at a concrete repeated call. -/
theorem claim7_idempotent_witness :
    get_event_details "ev1" "primary" (fun _ _ => Except.ok eventNoId) =
      get_event_details "ev1" "primary" (fun _ _ => Except.ok eventNoId) :=
  claim7_idempotent "ev1" "primary" _ _ rfl

/-- C8: for the call with start 2024-01-01T00:00:00Z and end
2024-01-02T00:00:00Z, assuming the provider honours the documented
`events.list` contract — every item's extracted start lies in the half-open
interval (lexicographic order, which is chronological on this fixed ISO
format) — and every attendee carries an email, each returned record's
`start` string lies in the interval and its `attendees` field is a list of
bare email strings, not attendee objects. -/
theorem claim8_range (cid : String) (n : Nat)
    (svc : EventsListRequest → Except String GEventsPage)
    (page : GEventsPage) (res : List JVal) (r : JVal)
    (hsvc : svc (rangeRequest "2024-01-01T00:00:00Z" "2024-01-02T00:00:00Z"
      cid n) = Except.ok page)
    (hres : get_events_in_date_range "2024-01-01T00:00:00Z"
      "2024-01-02T00:00:00Z" cid n svc = Except.ok res)
    (hstart : ∀ ev ∈ page.items.getD [], ∀ st, ev.start = some st →
      ∃ v, st.pick = some v ∧
        strLe "2024-01-01T00:00:00Z" v = true ∧
        strLt v "2024-01-02T00:00:00Z" = true)
    (hmail : ∀ ev ∈ page.items.getD [], ∀ a ∈ ev.attendees.getD [],
      a.email.isSome)
    (hr : r ∈ res) :
    (∃ v, r.getField "start" = some (JVal.str v) ∧
      strLe "2024-01-01T00:00:00Z" v = true ∧
      strLt v "2024-01-02T00:00:00Z" = true) ∧
    (∃ emails : List String,
      r.getField "attendees" = some (JVal.list (emails.map JVal.str))) := by
  simp only [get_events_in_date_range, hsvc] at hres
  obtain ⟨ev, hev, hfmt⟩ :=
    forall₂_mem_right (mapEvents_forall₂ formatListEvent _ _ hres) hr
  obtain ⟨hs, he⟩ := formatListEvent_start_isSome ev r hfmt
  obtain ⟨st, hst⟩ := Option.isSome_iff_exists.mp hs
  obtain ⟨en, hen⟩ := Option.isSome_iff_exists.mp he
  have hshape := formatListEvent_ok_shape ev st en r hst hen hfmt
  subst hshape
  obtain ⟨v, hpick, hge, hlt⟩ := hstart ev hev st hst
  constructor
  · refine ⟨v, ?_, hge, hlt⟩
    show some (optStr st.pick) = some (JVal.str v)
    rw [hpick]
    rfl
  · obtain ⟨emails, hmap⟩ := attendee_emails_are_strings _ (hmail ev hev)
    refine ⟨emails, ?_⟩
    show some (JVal.list ((ev.attendees.getD []).map (fun a => optStr a.email)))
      = some (JVal.list (emails.map JVal.str))
    rw [hmap]

/-- Witness for `claim8_range` at a concrete in-range provider response. -/
theorem claim8_range_witness :
    (∃ v, rangeRecord.getField "start" = some (JVal.str v) ∧
      strLe "2024-01-01T00:00:00Z" v = true ∧
      strLt v "2024-01-02T00:00:00Z" = true) ∧
    (∃ emails : List String,
      rangeRecord.getField "attendees"
        = some (JVal.list (emails.map JVal.str))) :=
  claim8_range "primary" 100 (fun _ => Except.ok ⟨some [rangeEvent]⟩)
    ⟨some [rangeEvent]⟩ [rangeRecord] rangeRecord rfl rfl
    (by
      intro ev hev st hst
      simp only [Option.getD_some, List.mem_singleton] at hev
      subst hev
      have hst2 : st = timedTime "2024-01-01T10:00:00Z" := by
        simp [rangeEvent] at hst
        exact hst.symm
      subst hst2
      exact ⟨"2024-01-01T10:00:00Z", rfl, by decide, by decide⟩)
    (by decide)
    (List.mem_singleton.mpr rfl)

/-- C9: on every success path the returned record(s) have the key list
fixed for that operation, and none of those key lists contains "error", so
failure is distinguishable purely by the presence of the "error" key. -/
theorem claim9_success_keys :
    ("error" ∉ listEventKeys ∧ "error" ∉ searchEventKeys ∧
      "error" ∉ detailEventKeys ∧ "error" ∉ createdEventKeys ∧
      "error" ∉ calendarKeys) ∧
    (∀ now n cid svc page res,
      svc (upcomingRequest now n cid) = Except.ok page →
      list_upcoming_events now n cid svc = Except.ok res →
      ∀ v ∈ res, v.keys = listEventKeys) ∧
    (∀ q n cid svc page res, svc (searchRequest q n cid) = Except.ok page →
      search_events q n cid svc = Except.ok res →
      ∀ v ∈ res, v.keys = searchEventKeys) ∧
    (∀ s t cid n svc page res, svc (rangeRequest s t cid n) = Except.ok page →
      get_events_in_date_range s t cid n svc = Except.ok res →
      ∀ v ∈ res, v.keys = listEventKeys) ∧
    (∀ eid cid svc ev v, svc cid eid = Except.ok ev →
      get_event_details eid cid svc = Except.ok v →
      v.keys = detailEventKeys) ∧
    (∀ su sd ed de lo atts cid svc ev v,
      svc cid (createEventBody su sd ed de lo atts) = Except.ok ev →
      create_event su sd ed de lo atts cid svc = Except.ok v →
      v.keys = createdEventKeys) ∧
    (∀ svc page res, svc () = Except.ok page →
      list_calendars svc = Except.ok res →
      ∀ v ∈ res, v.keys = calendarKeys) := by
  refine ⟨by decide, ?_, ?_, ?_, ?_, ?_, ?_⟩
  · intro now n cid svc page res h hres v hv
    simp only [list_upcoming_events, h] at hres
    obtain ⟨ev, _, hfmt⟩ :=
      forall₂_mem_right (mapEvents_forall₂ formatListEvent _ _ hres) hv
    obtain ⟨hs, he⟩ := formatListEvent_start_isSome ev v hfmt
    obtain ⟨st, hst⟩ := Option.isSome_iff_exists.mp hs
    obtain ⟨en, hen⟩ := Option.isSome_iff_exists.mp he
    rw [formatListEvent_ok_shape ev st en v hst hen hfmt]
    rfl
  · intro q n cid svc page res h hres v hv
    simp only [search_events, h] at hres
    obtain ⟨ev, _, hfmt⟩ :=
      forall₂_mem_right (mapEvents_forall₂ formatSearchEvent _ _ hres) hv
    obtain ⟨hs, he⟩ := formatSearchEvent_start_isSome ev v hfmt
    obtain ⟨st, hst⟩ := Option.isSome_iff_exists.mp hs
    obtain ⟨en, hen⟩ := Option.isSome_iff_exists.mp he
    rw [formatSearchEvent_ok_shape ev st en v hst hen hfmt]
    rfl
  · intro s t cid n svc page res h hres v hv
    simp only [get_events_in_date_range, h] at hres
    obtain ⟨ev, _, hfmt⟩ :=
      forall₂_mem_right (mapEvents_forall₂ formatListEvent _ _ hres) hv
    obtain ⟨hs, he⟩ := formatListEvent_start_isSome ev v hfmt
    obtain ⟨st, hst⟩ := Option.isSome_iff_exists.mp hs
    obtain ⟨en, hen⟩ := Option.isSome_iff_exists.mp he
    rw [formatListEvent_ok_shape ev st en v hst hen hfmt]
    rfl
  · intro eid cid svc ev v h hres
    simp only [get_event_details, h] at hres
    cases hst : ev.start with
    | none => simp only [hst] at hres; cases hres
    | some st =>
      simp only [hst] at hres
      cases hen : ev.end_ with
      | none => simp only [hen] at hres; cases hres
      | some en =>
        simp only [hen] at hres
        injection hres with hv
        subst hv
        rfl
  · intro su sd ed de lo atts cid svc ev v h hres
    simp only [create_event, h] at hres
    cases hst : ev.start with
    | none => simp only [hst] at hres; cases hres
    | some st =>
      simp only [hst] at hres
      cases hen : ev.end_ with
      | none => simp only [hen] at hres; cases hres
      | some en =>
        simp only [hen] at hres
        injection hres with hv
        subst hv
        rfl
  · intro svc page res h hres v hv
    simp only [list_calendars, h] at hres
    injection hres with hlist
    subst hlist
    obtain ⟨c, _, hc⟩ := List.mem_map.mp hv
    rw [← hc]
    rfl

/-- Witness for `claim9_success_keys` at concrete successful calls. -/
theorem claim9_success_keys_witness :
    detailRecordNoId.keys = detailEventKeys ∧
    rangeRecord.keys = listEventKeys :=
  ⟨claim9_success_keys.2.2.2.2.1 "ev1" "primary"
      (fun _ _ => Except.ok eventNoId) eventNoId detailRecordNoId rfl rfl,
   claim9_success_keys.2.2.2.1 "2024-01-01T00:00:00Z"
      "2024-01-02T00:00:00Z" "primary" 100
      (fun _ => Except.ok ⟨some [rangeEvent]⟩) ⟨some [rangeEvent]⟩
      [rangeRecord] rfl rfl rangeRecord (List.mem_singleton.mpr rfl)⟩

/-- C10: `create_event` with an explicitly empty attendee list builds
exactly the same request body as with the attendee parameter absent — the
Python guard `if attendees:` is falsy for both — and therefore the whole
operation's result is identical for every provider behaviour. -/
theorem claim10_empty_attendees (su sd ed de lo cid : String)
    (svc : String → JVal → Except String GEvent) :
    createEventBody su sd ed de lo (some []) =
      createEventBody su sd ed de lo none ∧
    create_event su sd ed de lo (some []) cid svc =
      create_event su sd ed de lo none cid svc :=
  ⟨rfl, rfl⟩

end CalendarMCP
